import Mathlib

/-
Verification of the PairAdmin event-interception and window-embedding
bridge for PuTTY (files pairadmin.h, pairadmin.c, terminal_modifications.c,
ldisc_modifications.c, window_modifications.c, PUTTY_MODIFICATIONS.c).

Shallow embedding: byte buffers are lists of bytes (`List Nat`); the
process-wide mutable state (the callback slot `pairadmin_callback`, the
window handle `hwnd_terminal`) is threaded explicitly through a
`PuttyState` record, together with an ordered log of the observable
actions the data path performs (rendering, transmission, callback
deliveries).  The `#ifdef PAIRADMIN_INTEGRATION` build switch is a `Bool`
parameter: `true` means the guarded code is compiled in, `false` means it
is absent.
-/

namespace PairAdmin

/-- PairAdminEventType from pairadmin.h lines 14-17:
OUTPUT = 1 (terminal output from SSH), INPUT = 2 (user input). -/
inductive PairAdminEventType where
  | OUTPUT
  | INPUT
  deriving DecidableEq, Repr

/-- Numeric values of the enum constants in pairadmin.h. -/
def PairAdminEventType.toNat : PairAdminEventType → Nat
  | .OUTPUT => 1
  | .INPUT => 2

/-- Observable actions of the terminal data path, in the order they occur:
`render` is term_data queueing output bytes for rendering, `transmit` is
ldisc_send passing input bytes onward, and `deliver` is an invocation of
the registered callback (identified by a `Nat` handler id) with the event
kind, the byte view and the length argument. -/
inductive Action where
  | render (data : List Nat)
  | transmit (data : List Nat)
  | deliver (cb : Nat) (event : PairAdminEventType) (data : List Nat) (len : Nat)
  deriving DecidableEq, Repr

/-- Process-wide mutable state: the callback slot (pairadmin.c line 12,
NULL modelled as `none`), the terminal window handle (window_modifications.c
line 27, NULL modelled as `none`), and the ordered log of data-path
actions performed so far. -/
structure PuttyState where
  pairadmin_callback : Option Nat
  hwnd_terminal : Option Nat
  log : List Action
  deriving DecidableEq, Repr

/-- State at process start: both globals are initialized to NULL
(pairadmin.c line 12, window_modifications.c line 27) and nothing has
happened yet. -/
def initialPuttyState : PuttyState :=
  { pairadmin_callback := none, hwnd_terminal := none, log := [] }

/-- pairadmin_set_callback from pairadmin.c lines 15-18: a single
unconditional assignment to the global slot, no validation. -/
def pairadmin_set_callback (callback : Option Nat) (s : PuttyState) : PuttyState :=
  { s with pairadmin_callback := callback }

/-- term_data, the terminal engine's own output processing (external
collaborator, terminal.c): it consumes the bytes and queues them for
rendering; its observable effect is one `render` action. -/
def term_data (data : List Nat) (s : PuttyState) : PuttyState :=
  { s with log := s.log ++ [Action.render data] }

/-- ldisc_send, the line-discipline transmission (external collaborator,
ldisc.c): it transmits the bytes onward and returns a size_t; its
observable effect is one `transmit` action. -/
def ldisc_send (buf : List Nat) (s : PuttyState) : PuttyState × Nat :=
  ({ s with log := s.log ++ [Action.transmit buf] }, buf.length)

/-- term_data_hook body (terminal_modifications.c lines 26-28,
PUTTY_MODIFICATIONS.c lines 18-23): if (pairadmin_callback)
pairadmin_callback(PAIRADMIN_EVENT_OUTPUT, data, len). -/
def term_data_hook (data : List Nat) (len : Nat) (s : PuttyState) : PuttyState :=
  match s.pairadmin_callback with
  | some cb => { s with log := s.log ++ [Action.deliver cb .OUTPUT data len] }
  | none => s

/-- ldisc_send_hook body (ldisc_modifications.c lines 26-28,
PUTTY_MODIFICATIONS.c lines 43-48): if (pairadmin_callback)
pairadmin_callback(PAIRADMIN_EVENT_INPUT, buf, len). -/
def ldisc_send_hook (buf : List Nat) (len : Nat) (s : PuttyState) : PuttyState :=
  match s.pairadmin_callback with
  | some cb => { s with log := s.log ++ [Action.deliver cb .INPUT buf len] }
  | none => s

/-- The modified term_data call site (PUTTY_MODIFICATIONS.c lines 26-31,
terminal_modifications.c lines 21-29): term_data(term, data, len) first,
then, when PAIRADMIN_INTEGRATION is compiled in, the output hook with the
same data and len.  `integration = false` is the unmodified call site. -/
def term_data_modified : Bool → List Nat → PuttyState → PuttyState
  | true, data, s => term_data_hook data data.length (term_data data s)
  | false, data, s => term_data data s

/-- The modified ldisc_send call site (PUTTY_MODIFICATIONS.c lines 51-56,
ldisc_modifications.c lines 21-29): when PAIRADMIN_INTEGRATION is compiled
in, the input hook fires with the same buf and len, then
ldisc_send(ldisc, buf, len) runs and its value is returned.
`integration = false` is the unmodified call site. -/
def ldisc_send_modified : Bool → List Nat → PuttyState → PuttyState × Nat
  | true, buf, s => ldisc_send buf (ldisc_send_hook buf buf.length s)
  | false, buf, s => ldisc_send buf s

/-- One chunk entering the terminal engine's data path: output bytes from
the remote host or input bytes typed by the user. -/
inductive Chunk where
  | output (data : List Nat)
  | input (data : List Nat)
  deriving DecidableEq, Repr

/-- Processing of one chunk by the (modified, when `integration`) engine. -/
def processChunk (integration : Bool) (s : PuttyState) (c : Chunk) : PuttyState :=
  match c with
  | .output data => term_data_modified integration data s
  | .input data => (ldisc_send_modified integration data s).1

/-- Sequential processing of a sequence of chunks, in order, on the
engine's single data-path thread. -/
def processChunks (integration : Bool) (s : PuttyState) : List Chunk → PuttyState
  | [] => s
  | c :: cs => processChunks integration (processChunk integration s c) cs

/-- Sequential processing that also collects the values returned by the
ldisc_send data-path calls, in order. -/
def runEngine (integration : Bool) (s : PuttyState) : List Chunk → PuttyState × List Nat
  | [] => (s, [])
  | Chunk.output data :: cs => runEngine integration (term_data_modified integration data s) cs
  | Chunk.input data :: cs =>
    ((runEngine integration (ldisc_send_modified integration data s).1 cs).1,
     (ldisc_send_modified integration data s).2
       :: (runEngine integration (ldisc_send_modified integration data s).1 cs).2)

/-- The unmodified engine (the "Original" call sites quoted in
PUTTY_MODIFICATIONS.c lines 28 and 53): term_data and ldisc_send with no
hooks at all. -/
def runEngineOrig (s : PuttyState) : List Chunk → PuttyState × List Nat
  | [] => (s, [])
  | Chunk.output data :: cs => runEngineOrig (term_data data s) cs
  | Chunk.input data :: cs =>
    ((runEngineOrig (ldisc_send data s).1 cs).1,
     (ldisc_send data s).2 :: (runEngineOrig (ldisc_send data s).1 cs).2)

/-- The events a given handler receives, projected from the action log:
kind, byte content, and length argument, in delivery order. -/
def deliveredTo (cb : Nat) (log : List Action) : List (PairAdminEventType × List Nat × Nat) :=
  log.filterMap fun a =>
    match a with
    | .deliver c e d l => if c = cb then some (e, d, l) else none
    | _ => none

/-- The engine's own observable behaviour, projected from the action log:
the render and transmit actions, with deliveries erased. -/
def engineView (log : List Action) : List Action :=
  log.filter fun a =>
    match a with
    | .deliver _ _ _ _ => false
    | _ => true

/-- The event a chunk should produce for the handler: its kind, its exact
bytes, and their length. -/
def chunkEvent : Chunk → PairAdminEventType × List Nat × Nat
  | .output d => (.OUTPUT, d, d.length)
  | .input d => (.INPUT, d, d.length)

/-- Actions the hook guarded by PAIRADMIN_INTEGRATION contributes for one
chunk: one delivery when compiled in and a handler is registered,
nothing otherwise. -/
def hookActs (integration : Bool) (cb : Option Nat) (e : PairAdminEventType)
    (d : List Nat) : List Action :=
  match integration, cb with
  | true, some h => [Action.deliver h e d d.length]
  | true, none => []
  | false, _ => []

/-- All actions one chunk appends to the log: render before the output
hook, the input hook before transmit. -/
def chunkActions (integration : Bool) (cb : Option Nat) : Chunk → List Action
  | Chunk.output d => Action.render d :: hookActs integration cb .OUTPUT d
  | Chunk.input d => hookActs integration cb .INPUT d ++ [Action.transmit d]

/-- All actions a chunk sequence appends to the log. -/
def chunksActions (integration : Bool) (cb : Option Nat) (cs : List Chunk) : List Action :=
  (cs.map (chunkActions integration cb)).flatten

/-- Render/transmit actions of one chunk in the unmodified engine. -/
def chunkActionsOrig : Chunk → List Action
  | Chunk.output d => [Action.render d]
  | Chunk.input d => [Action.transmit d]

/-- Render/transmit actions of a chunk sequence in the unmodified engine. -/
def chunksActionsOrig (cs : List Chunk) : List Action :=
  (cs.map chunkActionsOrig).flatten

/-- Lengths returned by the ldisc_send calls of a chunk sequence. -/
def ldiscReturns (cs : List Chunk) : List Nat :=
  cs.filterMap fun c =>
    match c with
    | .input d => some d.length
    | .output _ => none

lemma processChunk_log (b : Bool) (s : PuttyState) (c : Chunk) :
    (processChunk b s c).log = s.log ++ chunkActions b s.pairadmin_callback c := by
  cases c with
  | output d =>
    cases b with
    | false => simp [processChunk, term_data_modified, term_data, chunkActions, hookActs]
    | true =>
      cases hcb : s.pairadmin_callback with
      | none =>
        simp [processChunk, term_data_modified, term_data, term_data_hook, chunkActions,
          hookActs, hcb]
      | some h =>
        simp [processChunk, term_data_modified, term_data, term_data_hook, chunkActions,
          hookActs, hcb]
  | input d =>
    cases b with
    | false => simp [processChunk, ldisc_send_modified, ldisc_send, chunkActions, hookActs]
    | true =>
      cases hcb : s.pairadmin_callback with
      | none =>
        simp [processChunk, ldisc_send_modified, ldisc_send, ldisc_send_hook, chunkActions,
          hookActs, hcb]
      | some h =>
        simp [processChunk, ldisc_send_modified, ldisc_send, ldisc_send_hook, chunkActions,
          hookActs, hcb]

lemma processChunk_callback (b : Bool) (s : PuttyState) (c : Chunk) :
    (processChunk b s c).pairadmin_callback = s.pairadmin_callback := by
  cases c with
  | output d =>
    cases b with
    | false => rfl
    | true =>
      cases hcb : s.pairadmin_callback <;>
        simp [processChunk, term_data_modified, term_data, term_data_hook, hcb]
  | input d =>
    cases b with
    | false => rfl
    | true =>
      cases hcb : s.pairadmin_callback <;>
        simp [processChunk, ldisc_send_modified, ldisc_send, ldisc_send_hook, hcb]

lemma processChunk_hwnd (b : Bool) (s : PuttyState) (c : Chunk) :
    (processChunk b s c).hwnd_terminal = s.hwnd_terminal := by
  cases c with
  | output d =>
    cases b with
    | false => rfl
    | true =>
      cases hcb : s.pairadmin_callback <;>
        simp [processChunk, term_data_modified, term_data, term_data_hook, hcb]
  | input d =>
    cases b with
    | false => rfl
    | true =>
      cases hcb : s.pairadmin_callback <;>
        simp [processChunk, ldisc_send_modified, ldisc_send, ldisc_send_hook, hcb]

lemma chunksActions_cons (b : Bool) (cb : Option Nat) (c : Chunk) (cs : List Chunk) :
    chunksActions b cb (c :: cs) = chunkActions b cb c ++ chunksActions b cb cs := by
  simp [chunksActions]

lemma processChunks_log (b : Bool) (s : PuttyState) (cs : List Chunk) :
    (processChunks b s cs).log = s.log ++ chunksActions b s.pairadmin_callback cs := by
  induction cs generalizing s with
  | nil => simp [processChunks, chunksActions]
  | cons c cs ih =>
    rw [processChunks, ih, processChunk_log, processChunk_callback, chunksActions_cons,
      List.append_assoc]

lemma processChunks_callback (b : Bool) (s : PuttyState) (cs : List Chunk) :
    (processChunks b s cs).pairadmin_callback = s.pairadmin_callback := by
  induction cs generalizing s with
  | nil => rfl
  | cons c cs ih => rw [processChunks, ih, processChunk_callback]

lemma processChunks_hwnd (b : Bool) (s : PuttyState) (cs : List Chunk) :
    (processChunks b s cs).hwnd_terminal = s.hwnd_terminal := by
  induction cs generalizing s with
  | nil => rfl
  | cons c cs ih => rw [processChunks, ih, processChunk_hwnd]

lemma deliveredTo_append (h : Nat) (l1 l2 : List Action) :
    deliveredTo h (l1 ++ l2) = deliveredTo h l1 ++ deliveredTo h l2 := by
  simp [deliveredTo, List.filterMap_append]

lemma deliveredTo_chunkActions_some (h : Nat) (c : Chunk) :
    deliveredTo h (chunkActions true (some h) c) = [chunkEvent c] := by
  cases c <;> simp [chunkActions, hookActs, deliveredTo, chunkEvent]

lemma deliveredTo_chunksActions_some (h : Nat) (cs : List Chunk) :
    deliveredTo h (chunksActions true (some h) cs) = cs.map chunkEvent := by
  induction cs with
  | nil => simp [chunksActions, deliveredTo]
  | cons c cs ih =>
    rw [chunksActions_cons, deliveredTo_append, deliveredTo_chunkActions_some, ih]
    simp

lemma deliveredTo_chunksActions_none (b : Bool) (h : Nat) (cs : List Chunk) :
    deliveredTo h (chunksActions b none cs) = [] := by
  induction cs with
  | nil => simp [chunksActions, deliveredTo]
  | cons c cs ih =>
    rw [chunksActions_cons, deliveredTo_append, ih]
    cases c <;> cases b <;> simp [chunkActions, hookActs, deliveredTo]

lemma engineView_append (l1 l2 : List Action) :
    engineView (l1 ++ l2) = engineView l1 ++ engineView l2 := by
  simp [engineView, List.filter_append]

lemma engineView_chunkActions (b : Bool) (cb : Option Nat) (c : Chunk) :
    engineView (chunkActions b cb c) = chunkActionsOrig c := by
  cases c <;> cases b <;> cases cb <;>
    simp [chunkActions, hookActs, engineView, chunkActionsOrig]

lemma engineView_chunksActions (b : Bool) (cb : Option Nat) (cs : List Chunk) :
    engineView (chunksActions b cb cs) = chunksActionsOrig cs := by
  induction cs with
  | nil => simp [chunksActions, chunksActionsOrig, engineView]
  | cons c cs ih =>
    rw [chunksActions_cons, engineView_append, engineView_chunkActions, ih]
    simp [chunksActionsOrig]

lemma runEngine_fst (b : Bool) (s : PuttyState) (cs : List Chunk) :
    (runEngine b s cs).1 = processChunks b s cs := by
  induction cs generalizing s with
  | nil => rfl
  | cons c cs ih =>
    cases c with
    | output d => rw [runEngine, ih]; rfl
    | input d =>
      have h1 : (runEngine b s (Chunk.input d :: cs)).1
          = (runEngine b (ldisc_send_modified b d s).1 cs).1 := rfl
      rw [h1, ih]; rfl

lemma runEngine_snd (b : Bool) (s : PuttyState) (cs : List Chunk) :
    (runEngine b s cs).2 = ldiscReturns cs := by
  induction cs generalizing s with
  | nil => rfl
  | cons c cs ih =>
    cases c with
    | output d =>
      rw [runEngine, ih]
      simp [ldiscReturns]
    | input d =>
      have h2 : (runEngine b s (Chunk.input d :: cs)).2
          = (ldisc_send_modified b d s).2
            :: (runEngine b (ldisc_send_modified b d s).1 cs).2 := rfl
      rw [h2, ih]
      cases b <;> simp [ldisc_send_modified, ldisc_send, ldiscReturns]

lemma runEngine_false_eq_orig (s : PuttyState) (cs : List Chunk) :
    runEngine false s cs = runEngineOrig s cs := by
  induction cs generalizing s with
  | nil => rfl
  | cons c cs ih =>
    cases c with
    | output d => rw [runEngine, runEngineOrig, term_data_modified, ih]
    | input d =>
      rw [runEngine, runEngineOrig, ldisc_send_modified, ih]

/-- Modelled from the spec: PuTTY's window.c window-creation and
window-destruction code, which assigns the global `hwnd_terminal`, is not
part of this repository (window_modifications.c only declares
`HWND hwnd_terminal = NULL` and the getter).  Per spec section 4.3 the
query "returns the current Terminal Surface Handle, or a null/invalid
sentinel if the terminal window has not yet been created or has already
been destroyed": creation stores the window's handle in the global. -/
def window_create (hwnd : Nat) (s : PuttyState) : PuttyState :=
  { s with hwnd_terminal := some hwnd }

/-- Modelled from the spec: destruction of the terminal window invalidates
the Terminal Surface Handle (spec sections 3 and 4.3), restoring the null
sentinel in the global `hwnd_terminal`. -/
def window_destroy (s : PuttyState) : PuttyState :=
  { s with hwnd_terminal := none }

/-- putty_get_terminal_hwnd from window_modifications.c lines 32-35:
returns the global hwnd_terminal as it currently stands. -/
def putty_get_terminal_hwnd (s : PuttyState) : Option Nat :=
  s.hwnd_terminal

/-- C1: with a handler registered, every processed chunk produces exactly
one event for that handler, in the engine's own processing order, with
byte-exact content and length — no truncation, duplication, reordering or
drops: the handler's event trace grows by exactly `cs.map chunkEvent`. -/
theorem C1_handler_observes_exact_trace (s : PuttyState) (h : Nat) (cs : List Chunk)
    (hcb : s.pairadmin_callback = some h) :
    deliveredTo h (processChunks true s cs).log
      = deliveredTo h s.log ++ cs.map chunkEvent := by
  rw [processChunks_log, deliveredTo_append, hcb, deliveredTo_chunksActions_some]

/-- Witness for C1 at a concrete state and chunk sequence: two output
chunks and one input chunk yield exactly those three events in order. -/
theorem C1_handler_observes_exact_trace_witness :
    ({ pairadmin_callback := some 7, hwnd_terminal := none, log := [] }
        : PuttyState).pairadmin_callback = some 7
    ∧ deliveredTo 7 (processChunks true
        { pairadmin_callback := some 7, hwnd_terminal := none, log := [] }
        [Chunk.output [104, 105], Chunk.output [33], Chunk.input [108, 115]]).log
      = deliveredTo 7 ([] : List Action)
        ++ [Chunk.output [104, 105], Chunk.output [33],
            Chunk.input [108, 115]].map chunkEvent :=
  ⟨rfl, C1_handler_observes_exact_trace _ 7 _ rfl⟩

/-- C2: with a handler registered, an input chunk is delivered to the
handler strictly before the bytes are transmitted, with the exact bytes
and length about to be sent; the transmission still occurs afterward with
those same bytes, and the returned value is unchanged. -/
theorem C2_input_delivered_before_transmit (s : PuttyState) (h : Nat) (buf : List Nat)
    (hcb : s.pairadmin_callback = some h) :
    (ldisc_send_modified true buf s).1.log
        = s.log ++ [Action.deliver h .INPUT buf buf.length, Action.transmit buf]
      ∧ (ldisc_send_modified true buf s).2 = buf.length := by
  constructor
  · simp [ldisc_send_modified, ldisc_send, ldisc_send_hook, hcb]
  · rfl

/-- Witness for C2 at a concrete state and input buffer. -/
theorem C2_input_delivered_before_transmit_witness :
    ({ pairadmin_callback := some 3, hwnd_terminal := none, log := [] }
        : PuttyState).pairadmin_callback = some 3
    ∧ ((ldisc_send_modified true [108, 115, 10]
          { pairadmin_callback := some 3, hwnd_terminal := none, log := [] }).1.log
        = [] ++ [Action.deliver 3 .INPUT [108, 115, 10] 3, Action.transmit [108, 115, 10]]
      ∧ (ldisc_send_modified true [108, 115, 10]
          { pairadmin_callback := some 3, hwnd_terminal := none, log := [] }).2 = 3) :=
  ⟨rfl, C2_input_delivered_before_transmit _ 3 [108, 115, 10] rfl⟩

/-- C3: the engine's own observable behaviour — the bytes it renders, the
bytes it transmits, and the values its data-path functions return — is
identical whatever value the callback slot holds: notification is
strictly one-directional. -/
theorem C3_engine_behaviour_independent_of_handler (cs : List Chunk)
    (cb1 cb2 : Option Nat) (w : Option Nat) (l : List Action) :
    engineView (runEngine true
        { pairadmin_callback := cb1, hwnd_terminal := w, log := l } cs).1.log
      = engineView (runEngine true
        { pairadmin_callback := cb2, hwnd_terminal := w, log := l } cs).1.log
    ∧ (runEngine true { pairadmin_callback := cb1, hwnd_terminal := w, log := l } cs).2
      = (runEngine true { pairadmin_callback := cb2, hwnd_terminal := w, log := l } cs).2 := by
  constructor
  · rw [runEngine_fst, runEngine_fst, processChunks_log, processChunks_log,
      engineView_append, engineView_append, engineView_chunksActions,
      engineView_chunksActions]
  · rw [runEngine_snd, runEngine_snd]

/-- C4: while no handler is installed (as at process start), both hooks
are identity on the state — no callback invocation, no observable effect
on output, rendering or transmission — and each modified call site
behaves exactly as the bare engine call. -/
theorem C4_no_handler_is_noop (s : PuttyState) (data buf : List Nat)
    (hcb : s.pairadmin_callback = none) :
    initialPuttyState.pairadmin_callback = none
    ∧ term_data_hook data data.length s = s
    ∧ ldisc_send_hook buf buf.length s = s
    ∧ term_data_modified true data s = term_data data s
    ∧ ldisc_send_modified true buf s = ldisc_send buf s := by
  refine ⟨rfl, ?_, ?_, ?_, ?_⟩
  · simp [term_data_hook, hcb]
  · simp [ldisc_send_hook, hcb]
  · simp [term_data_modified, term_data_hook, term_data, hcb]
  · simp [ldisc_send_modified, ldisc_send_hook, hcb]

/-- Witness for C4 at the process-start state and concrete buffers. -/
theorem C4_no_handler_is_noop_witness :
    initialPuttyState.pairadmin_callback = none
    ∧ (initialPuttyState.pairadmin_callback = none
      ∧ term_data_hook [1, 2] 2 initialPuttyState = initialPuttyState
      ∧ ldisc_send_hook [9] 1 initialPuttyState = initialPuttyState
      ∧ term_data_modified true [1, 2] initialPuttyState = term_data [1, 2] initialPuttyState
      ∧ ldisc_send_modified true [9] initialPuttyState = ldisc_send [9] initialPuttyState) :=
  ⟨rfl, C4_no_handler_is_noop initialPuttyState [1, 2] [9] rfl⟩

/-- C5: querying the surface handle before the terminal window exists
returns the null sentinel; after creation it returns the stable non-null
handle, unchanged by any amount of data-path processing; after
destruction every subsequent query returns the sentinel again. -/
theorem C5_surface_handle_lifecycle (hwnd : Nat) (s : PuttyState)
    (cs ds : List Chunk) (b b' : Bool) :
    putty_get_terminal_hwnd initialPuttyState = none
    ∧ putty_get_terminal_hwnd (processChunks b (window_create hwnd s) cs) = some hwnd
    ∧ putty_get_terminal_hwnd
        (processChunks b'
          (window_destroy (processChunks b (window_create hwnd s) cs)) ds) = none := by
  refine ⟨rfl, ?_, ?_⟩
  · rw [putty_get_terminal_hwnd, processChunks_hwnd]; rfl
  · rw [putty_get_terminal_hwnd, processChunks_hwnd]; rfl

/-- C6: with a handler registered, an output chunk is first fully
processed and queued for rendering by the engine (term_data), and only
then is the OUTPUT event delivered, carrying exactly the bytes and length
the engine consumed; nothing else changes in the state. -/
theorem C6_output_delivered_after_processing (s : PuttyState) (h : Nat) (data : List Nat)
    (hcb : s.pairadmin_callback = some h) :
    term_data_modified true data s
      = { s with log := s.log
            ++ [Action.render data, Action.deliver h .OUTPUT data data.length] } := by
  simp [term_data_modified, term_data, term_data_hook, hcb]

/-- Witness for C6 at a concrete state and output buffer. -/
theorem C6_output_delivered_after_processing_witness :
    ({ pairadmin_callback := some 5, hwnd_terminal := some 40, log := [] }
        : PuttyState).pairadmin_callback = some 5
    ∧ term_data_modified true [65, 66]
        { pairadmin_callback := some 5, hwnd_terminal := some 40, log := [] }
      = { pairadmin_callback := some 5, hwnd_terminal := some 40,
          log := [] ++ [Action.render [65, 66], Action.deliver 5 .OUTPUT [65, 66] 2] } :=
  ⟨rfl, C6_output_delivered_after_processing _ 5 [65, 66] rfl⟩

/-- C7: after unregistering (storing NULL in the slot), no chunk the
engine subsequently processes delivers any further notification to the
previously registered handler: its event trace is exactly what it was
when the unregister call returned. -/
theorem C7_no_notifications_after_unregister (s : PuttyState) (h : Nat) (cs : List Chunk) :
    deliveredTo h (processChunks true (pairadmin_set_callback none s) cs).log
      = deliveredTo h s.log := by
  rw [processChunks_log]
  have hcb : (pairadmin_set_callback none s).pairadmin_callback = none := rfl
  have hlog : (pairadmin_set_callback none s).log = s.log := rfl
  rw [hcb, hlog, deliveredTo_append, deliveredTo_chunksActions_none, List.append_nil]

/-- C8: the callback slot is a single process-wide cell and registration
is last-writer-wins: after any sequence of pairadmin_set_callback calls,
the active handler is exactly the argument of the most recent call (or
the prior contents if there was no call). -/
theorem C8_single_slot_last_registration_wins (s : PuttyState) (calls : List (Option Nat)) :
    (calls.foldl (fun t c => pairadmin_set_callback c t) s).pairadmin_callback
      = calls.getLast?.getD s.pairadmin_callback := by
  induction calls generalizing s with
  | nil => rfl
  | cons c cs ih =>
    rw [List.foldl_cons, ih]
    cases cs with
    | nil => rfl
    | cons c2 cs2 =>
      cases hl : (c2 :: cs2).getLast? with
      | none => simp at hl
      | some x => simp [hl]

/-- C9: with the PAIRADMIN_INTEGRATION build switch disabled the engine's
behaviour on every chunk sequence — final state and returned values — is
exactly that of the unmodified engine, and no callback is ever invoked. -/
theorem C9_disabled_switch_is_unmodified_engine (s : PuttyState) (cs : List Chunk) (h : Nat) :
    runEngine false s cs = runEngineOrig s cs
    ∧ deliveredTo h (runEngine false s cs).1.log = deliveredTo h s.log := by
  refine ⟨runEngine_false_eq_orig s cs, ?_⟩
  rw [runEngine_fst, processChunks_log, deliveredTo_append]
  have hnone : ∀ cb : Option Nat, deliveredTo h (chunksActions false cb cs) = [] := by
    intro cb
    induction cs with
    | nil => simp [chunksActions, deliveredTo]
    | cons c cs2 ih =>
      rw [chunksActions_cons, deliveredTo_append, ih]
      cases c <;> cases cb <;> simp [chunkActions, hookActs, deliveredTo]
  rw [hnone, List.append_nil]

/-- C10: pairadmin_set_callback stores exactly its argument in the slot
with no validation and no other effect, for every value including NULL —
so passing NULL is precisely the mechanism that unregisters. -/
theorem C10_set_callback_stores_exactly (c : Option Nat) (s : PuttyState) :
    (pairadmin_set_callback c s).pairadmin_callback = c
    ∧ (pairadmin_set_callback c s).hwnd_terminal = s.hwnd_terminal
    ∧ (pairadmin_set_callback c s).log = s.log
    ∧ pairadmin_set_callback none s = { s with pairadmin_callback := none } :=
  ⟨rfl, rfl, rfl, rfl⟩

end PairAdmin
